import Mathlib

/-!
Verification of the BeautyBird appointment-reminder application
(repository `messagebirdguides/reminders-guide-go`, `main.go`).

The application runs in a single fixed timezone (Europe/Amsterdam) and all
time comparisons happen at minute precision (the form submits date plus
hour:minute).  We therefore embed `time.Time` values as a calendar date
(a day index counted from Go's zero date, January 1 of year 1) together
with the wall-clock minute of that day in the fixed zone.  `time.Duration`
values are embedded as a number of minutes (`Int`, since Go durations are
signed).  Values actually produced by the Go code always have
`0 ≤ minute < 1440`; the theorems quantify over all representations, a
superset of the reachable ones.
-/

/-- Embeds Go `time.Time` in the single fixed location:
`day` is the calendar date (day index from Go's zero date), `minute` the
wall-clock minutes past local midnight of that date. -/
structure GoTime where
  day : Int
  minute : Int
  deriving DecidableEq, Repr

namespace GoTime

/-- The absolute instant, in minutes, denoted by a `GoTime`. -/
def toMinutes (t : GoTime) : Int := t.day * 1440 + t.minute

/-- Embeds Go `Time.Before` (strict comparison of instants). -/
def before (a b : GoTime) : Bool := a.toMinutes < b.toMinutes

/-- Embeds Go `Time.After` (strict comparison of instants). -/
def after (a b : GoTime) : Bool := b.toMinutes < a.toMinutes

/-- Embeds Go `Time.Sub`: the duration (in minutes) from `b` to `a`. -/
def sub (a b : GoTime) : Int := a.toMinutes - b.toMinutes

/-- The `GoTime` denoting a given absolute instant, in normalized form
(`0 ≤ minute < 1440`). -/
def ofMinutes (m : Int) : GoTime := ⟨m / 1440, m % 1440⟩

/-- Embeds Go `Time.Add`: shift an instant by a duration (in minutes).
Go adds on the absolute instant and rederives the calendar date. -/
def add (t : GoTime) (d : Int) : GoTime := ofMinutes (t.toMinutes + d)

/-- Embeds Go's zero `time.Time` (January 1, year 1, the value
`time.ParseInLocation` returns alongside an error): day index 0. -/
def zero : GoTime := ⟨0, 0⟩

theorem toMinutes_ofMinutes (m : Int) : (ofMinutes m).toMinutes = m := by
  simp only [ofMinutes, toMinutes]
  omega

theorem toMinutes_add (t : GoTime) (d : Int) :
    (t.add d).toMinutes = t.toMinutes + d := by
  simp only [add, toMinutes_ofMinutes]

end GoTime

/-- Embeds `time.ParseDuration("3h")` from `bbScheduler`, in minutes. -/
def reminderDiffVal : Int := 180

/-- Embeds `time.Date(bookingYear, bookingMonth, bookingDay, 9, 0, 0, 0, loc)`
from `checkTime`: 09:00 on the booking's calendar date. -/
def openingTimeOf (bookingTime : GoTime) : GoTime := ⟨bookingTime.day, 9 * 60⟩

/-- Embeds `time.Date(bookingYear, bookingMonth, bookingDay, 18, 0, 0, 0, loc)`
from `checkTime`: 18:00 on the booking's calendar date. -/
def closingTimeOf (bookingTime : GoTime) : GoTime := ⟨bookingTime.day, 18 * 60⟩

/-- Embeds Go's `Format("03:04 PM")` applied to a wall-clock minute of the
day: zero-padded 12-hour clock with AM/PM. -/
def formatClock12 (m : Int) : String :=
  let mm := (m % 1440).toNat
  let h24 := mm / 60
  let mins := mm % 60
  let h12 := if h24 % 12 = 0 then 12 else h24 % 12
  let pad := fun (n : Nat) => if n < 10 then "0" ++ toString n else toString n
  let ampm := if h24 < 12 then "AM" else "PM"
  pad h12 ++ ":" ++ pad mins ++ " " ++ ampm

/-- Embeds `strings.Split(reminderDiff.String(), "h")[0]` from `checkTime`
for the whole-hour durations the handler uses (for `180` minutes Go renders
`"3h0m0s"` and the split yields `"3"`, which is `toString (180 / 60)`). -/
def durationHoursPart (d : Int) : String := toString (d / 60)

/-- The five result strings of `checkTime` (the four rejection messages are
built from the constant 09:00/18:00 bounds, so they are constants; the
too-soon message carries the lead time). -/
def beforeNowMsg : String := "Cannot make a booking before now. Please try again!"

def beforeOpeningMsg : String :=
  "We're not open yet! Please book your appointment between 09:00 AM and 06:00 PM."

def afterClosingMsg : String :=
  "We're closed! Please book your appointment between 09:00 AM and 06:00 PM."

def tooSoonMsg (reminderDiff : Int) : String :=
  "Please book an appointment " ++ durationHoursPart reminderDiff ++ " hours in advance."

def successMsg : String := "Success!"

/-- Embeds `checkTime` (src/main.go lines 148-184).  The Go function reads
`now := time.Now().In(loc)` inside its body (line 159); the embedding
threads that clock reading as the explicit `now` argument.  The unused
`http.ResponseWriter` parameter is carried by `checkTimeW` below. -/
def checkTime (now : GoTime) (bookingTime : GoTime) (reminderDiff : Int) : String :=
  let openingTime := openingTimeOf bookingTime
  let closingTime := closingTimeOf bookingTime
  let timeBeforeBooking := bookingTime.sub now
  if bookingTime.before now then
    "Cannot make a booking before now. Please try again!"
  else if bookingTime.before openingTime then
    "We're not open yet! Please book your appointment between " ++
      formatClock12 openingTime.minute ++ " and " ++ formatClock12 closingTime.minute ++ "."
  else if bookingTime.after closingTime then
    "We're closed! Please book your appointment between " ++
      formatClock12 openingTime.minute ++ " and " ++ formatClock12 closingTime.minute ++ "."
  else if timeBeforeBooking < reminderDiff then
    "Please book an appointment " ++ durationHoursPart reminderDiff ++ " hours in advance."
  else
    "Success!"

/-- Variant of `checkTime` with the `http.ResponseWriter` parameter of the
Go signature (line 148) made explicit: the writer is modelled as a state of
arbitrary type threaded through the call.  The body of the Go function
never mentions `w`, so the embedding returns it unchanged alongside the
status string. -/
def checkTimeW {W : Type} (w : W) (bookingTime : GoTime) (reminderDiff : Int)
    (now : GoTime) : String × W :=
  (checkTime now bookingTime reminderDiff, w)

/-- The spec's `ValidationOutcome` tags (§3). -/
inductive ValidationOutcome
  | Valid
  | BeforeNow
  | BeforeOpening
  | AfterClosing
  | TooSoon
  deriving DecidableEq, Repr

open ValidationOutcome

/-- The branch skeleton of `checkTime`: the same cascade of conditions, in
the same order, returning the tag of the branch taken instead of its
message.  `checkTime_eq_render` proves that `checkTime` is exactly this
skeleton followed by message rendering. -/
def checkTimeOutcome (now : GoTime) (bookingTime : GoTime) (reminderDiff : Int) :
    ValidationOutcome :=
  if bookingTime.before now then BeforeNow
  else if bookingTime.before (openingTimeOf bookingTime) then BeforeOpening
  else if bookingTime.after (closingTimeOf bookingTime) then AfterClosing
  else if bookingTime.sub now < reminderDiff then TooSoon
  else Valid

/-- The message each outcome renders to in `checkTime`. -/
def renderMsg (reminderDiff : Int) : ValidationOutcome → String
  | BeforeNow => beforeNowMsg
  | BeforeOpening => beforeOpeningMsg
  | AfterClosing => afterClosingMsg
  | TooSoon => tooSoonMsg reminderDiff
  | Valid => successMsg

theorem checkTime_eq_render (now bookingTime : GoTime) (reminderDiff : Int) :
    checkTime now bookingTime reminderDiff =
      renderMsg reminderDiff (checkTimeOutcome now bookingTime reminderDiff) := by
  simp only [checkTime, checkTimeOutcome, renderMsg, beforeNowMsg, beforeOpeningMsg,
    afterClosingMsg, tooSoonMsg, successMsg, openingTimeOf, closingTimeOf]
  split_ifs <;> rfl

/-!
## The HTTP handler `bbScheduler` (src/main.go lines 51-145)

The handler's external collaborators are embedded as an environment of
per-request oracle values:

* `sysNow` — the value `time.Now().In(loc)` reads during the request (the
  handler reads the clock at lines 74, 96 and inside `checkTime`; within
  one request these reads are the same minute-precision value);
* `parseResult` — the result of
  `time.ParseInLocation("2006-01-02 15:04", date ++ " " ++ time, loc)`
  (line 82): `some t` on success, `none` on a parse error — in which case
  Go's multiple-return convention leaves `bookingTime` the zero `time.Time`;
* `lookupOk` — whether `lookup.Read` (line 101) returns a nil error
  (it errors both for invalid numbers and for service failures);
* `smsOk` / `smsErrText` — whether `sms.Create` (line 116) returns a nil
  error, and the error's text when it does not.

Date rendering by the Go layout strings is external `time` stdlib
formatting; the embedding keeps it as injective functions of the instant
(`formatDate`, `formatFull`) since no claim inspects the rendered digits.
-/

/-- Embeds `Format("2006-01-02")` of an instant: its calendar date. -/
def formatDate (t : GoTime) : String := toString t.day

/-- Embeds `Format("Mon, 02 Jan 2006 3:04 PM")` of an instant. -/
def formatFull (t : GoTime) : String := toString t.day ++ " " ++ toString t.minute

/-- Embeds the Go `booking` struct (src/main.go lines 22-28).
`BookingTime` is a `*time.Time`, hence an `Option`. -/
structure Booking where
  Name : String
  Treatment : String
  Phone : String
  BookingTime : Option GoTime
  MinDate : String
  deriving DecidableEq, Repr

/-- Embeds the Go `bookingContainer` struct (lines 30-33): the data handed
to `RenderDefaultTemplate`. -/
structure BookingContainer where
  Booking : Booking
  Message : String
  deriving DecidableEq, Repr

inductive Method
  | GET
  | POST
  deriving DecidableEq, Repr

/-- The form fields of a request (`r.FormValue` reads, line 82 and 91-97). -/
structure Request where
  method : Method
  name : String
  treatment : String
  phone : String
  dateField : String
  timeField : String
  deriving DecidableEq, Repr

/-- Per-request oracle values for the handler's external collaborators. -/
structure Env where
  sysNow : GoTime
  parseResult : Option GoTime
  lookupOk : Bool
  smsOk : Bool
  smsErrText : String
  deriving DecidableEq, Repr

/-- The arguments of the single `sms.Create` call (lines 116-125). -/
structure SmsCall where
  originator : String
  recipients : List String
  body : String
  scheduledDatetime : GoTime
  deriving DecidableEq, Repr

/-- What one run of the handler did: the container passed to
`RenderDefaultTemplate`, and the `sms.Create` invocation if one was made
(`none` = zero invocations, `some c` = exactly one, with arguments `c`). -/
structure HandlerResult where
  rendered : BookingContainer
  smsCall : Option SmsCall
  deriving DecidableEq, Repr

/-- Embeds the handler `bbScheduler` (src/main.go lines 51-145).
`loc` and `reminderDiff` are the constants of lines 60 and 67; on a parse
error at line 82 the code only logs and continues, so `bookingTime` is
Go's zero `time.Time`. -/
def bbScheduler (env : Env) (r : Request) : HandlerResult :=
  let reminderDiff := reminderDiffVal
  let bookingEmpty : Booking :=
    { Name := "", Treatment := "", Phone := "", BookingTime := none,
      MinDate := formatDate env.sysNow }
  match r.method with
  | Method.POST =>
    let bookingTime : GoTime := env.parseResult.getD GoTime.zero
    let reminderTime : GoTime := bookingTime.add (-reminderDiff)
    let thisBooking : Booking :=
      { Name := r.name, Treatment := r.treatment, Phone := r.phone,
        BookingTime := some bookingTime, MinDate := formatDate env.sysNow }
    if env.lookupOk = false then
      { rendered := ⟨thisBooking, "Please enter a valid phone number."⟩,
        smsCall := none }
    else
      let status := checkTime env.sysNow bookingTime reminderDiff
      if status = "Success!" then
        let successStatus :=
          "Done! We've set up an appointment for you at " ++ formatFull bookingTime ++
            " for " ++ r.treatment ++ ". We'll send a reminder to " ++ r.phone ++
            " at " ++ formatFull reminderTime ++ ". Thanks for using BeautyBird!"
        let reminderMessage :=
          "Gentle reminder: you've got an appointment with BeautyBird at " ++
            formatFull bookingTime ++ ". See you then!"
        let call : SmsCall :=
          { originator := "BeautyBird", recipients := [r.phone],
            body := reminderMessage, scheduledDatetime := reminderTime }
        if env.smsOk = false then
          { rendered := ⟨thisBooking,
              env.smsErrText ++ "\n" ++ ". Please check your details and try again!"⟩,
            smsCall := some call }
        else
          { rendered := ⟨thisBooking, successStatus⟩, smsCall := some call }
      else if status ≠ "" then
        { rendered := ⟨thisBooking, status⟩, smsCall := none }
      else
        { rendered := ⟨bookingEmpty, ""⟩, smsCall := none }
  | Method.GET => { rendered := ⟨bookingEmpty, ""⟩, smsCall := none }

/-!
## Helper lemmas
-/

theorem tooSoonMsg_ne_empty (d : Int) : tooSoonMsg d ≠ "" := by
  intro h
  have hlen := congrArg String.length h
  simp only [tooSoonMsg, String.length_append] at hlen
  have hA : ("Please book an appointment " : String).length = 27 := rfl
  have hC : (" hours in advance." : String).length = 18 := rfl
  have hD : ("" : String).length = 0 := rfl
  omega

theorem checkTime_ne_empty (now bookingTime : GoTime) (reminderDiff : Int) :
    checkTime now bookingTime reminderDiff ≠ "" := by
  rw [checkTime_eq_render]
  cases checkTimeOutcome now bookingTime reminderDiff with
  | TooSoon => exact tooSoonMsg_ne_empty reminderDiff
  | Valid => exact (by decide : successMsg ≠ "")
  | BeforeNow => exact (by decide : beforeNowMsg ≠ "")
  | BeforeOpening => exact (by decide : beforeOpeningMsg ≠ "")
  | AfterClosing => exact (by decide : afterClosingMsg ≠ "")

/-!
## Claims about the time validator
Throughout, the outcome tags of the spec correspond to the result strings
of `checkTime` as in `renderMsg`: `BeforeNow` ↦ `beforeNowMsg`,
`BeforeOpening` ↦ `beforeOpeningMsg`, `AfterClosing` ↦ `afterClosingMsg`,
`TooSoon` ↦ `tooSoonMsg`, `Valid` ↦ `successMsg`.
-/

/-- C1: the time validator evaluates its rejection conditions in a fixed
priority order with first match winning: for every booking instant,
clock reading `now`, and lead time, if the booking instant is strictly
before `now` the outcome is `BeforeNow` regardless of the other
conditions; otherwise if strictly before that date's opening instant it
is `BeforeOpening`; otherwise if strictly after that date's closing
instant it is `AfterClosing`; otherwise if the interval from `now` to the
booking instant is strictly less than the lead time it is `TooSoon`;
otherwise it is `Valid`. -/
theorem checkTime_priority_order (now bookingTime : GoTime) (reminderDiff : Int) :
    (bookingTime.toMinutes < now.toMinutes →
      checkTime now bookingTime reminderDiff = beforeNowMsg) ∧
    (now.toMinutes ≤ bookingTime.toMinutes →
      bookingTime.toMinutes < (openingTimeOf bookingTime).toMinutes →
      checkTime now bookingTime reminderDiff = beforeOpeningMsg) ∧
    (now.toMinutes ≤ bookingTime.toMinutes →
      (openingTimeOf bookingTime).toMinutes ≤ bookingTime.toMinutes →
      (closingTimeOf bookingTime).toMinutes < bookingTime.toMinutes →
      checkTime now bookingTime reminderDiff = afterClosingMsg) ∧
    (now.toMinutes ≤ bookingTime.toMinutes →
      (openingTimeOf bookingTime).toMinutes ≤ bookingTime.toMinutes →
      bookingTime.toMinutes ≤ (closingTimeOf bookingTime).toMinutes →
      bookingTime.toMinutes - now.toMinutes < reminderDiff →
      checkTime now bookingTime reminderDiff = tooSoonMsg reminderDiff) ∧
    (now.toMinutes ≤ bookingTime.toMinutes →
      (openingTimeOf bookingTime).toMinutes ≤ bookingTime.toMinutes →
      bookingTime.toMinutes ≤ (closingTimeOf bookingTime).toMinutes →
      reminderDiff ≤ bookingTime.toMinutes - now.toMinutes →
      checkTime now bookingTime reminderDiff = successMsg) := by
  simp only [checkTime_eq_render]
  simp only [checkTimeOutcome, GoTime.before, GoTime.after, GoTime.sub,
    openingTimeOf, closingTimeOf, GoTime.toMinutes, decide_eq_true_eq]
  refine ⟨fun h1 => ?_, fun h1 h2 => ?_, fun h1 h2 h3 => ?_,
    fun h1 h2 h3 h4 => ?_, fun h1 h2 h3 h4 => ?_⟩ <;>
    split_ifs <;> first | rfl | (exfalso; omega)

/-- C1 witness at Scenario-A-like values: `now` at 10:00, booking at 14:00
the same day, lead time 3h → `Valid`. -/
theorem checkTime_priority_order_witness :
    checkTime ⟨100, 600⟩ ⟨100, 840⟩ 180 = successMsg :=
  (checkTime_priority_order ⟨100, 600⟩ ⟨100, 840⟩ 180).2.2.2.2
    (by decide) (by decide) (by decide) (by decide)

/-- C2: all three boundary comparisons are inclusive on the valid side:
a booking exactly at the opening instant is not rejected as
`BeforeOpening`, exactly at the closing instant not as `AfterClosing`,
exactly the lead time from `now` not as `TooSoon`, and exactly at `now`
not as `BeforeNow`. -/
theorem checkTime_boundaries_inclusive (now bookingTime : GoTime) (reminderDiff : Int) :
    (bookingTime.toMinutes = (openingTimeOf bookingTime).toMinutes →
      checkTimeOutcome now bookingTime reminderDiff ≠ ValidationOutcome.BeforeOpening) ∧
    (bookingTime.toMinutes = (closingTimeOf bookingTime).toMinutes →
      checkTimeOutcome now bookingTime reminderDiff ≠ ValidationOutcome.AfterClosing) ∧
    (bookingTime.toMinutes - now.toMinutes = reminderDiff →
      checkTimeOutcome now bookingTime reminderDiff ≠ ValidationOutcome.TooSoon) ∧
    (bookingTime.toMinutes = now.toMinutes →
      checkTimeOutcome now bookingTime reminderDiff ≠ ValidationOutcome.BeforeNow) := by
  simp only [checkTimeOutcome, GoTime.before, GoTime.after, GoTime.sub,
    openingTimeOf, closingTimeOf, GoTime.toMinutes, decide_eq_true_eq]
  refine ⟨fun h1 => ?_, fun h1 => ?_, fun h1 => ?_, fun h1 => ?_⟩ <;>
    split_ifs <;> first | decide | (exfalso; omega)

/-- C2 witness: booking exactly at opening (09:00), exactly the 3h lead
time after a 06:00 `now`, on the same day: none of the four boundary
rejections fires. -/
theorem checkTime_boundaries_inclusive_witness :
    (checkTimeOutcome ⟨100, 360⟩ ⟨100, 540⟩ 180 ≠ ValidationOutcome.BeforeOpening) ∧
    (checkTimeOutcome ⟨100, 360⟩ ⟨100, 540⟩ 180 ≠ ValidationOutcome.TooSoon) :=
  ⟨(checkTime_boundaries_inclusive ⟨100, 360⟩ ⟨100, 540⟩ 180).1 (by decide),
   (checkTime_boundaries_inclusive ⟨100, 360⟩ ⟨100, 540⟩ 180).2.2.1 (by decide)⟩

/-- C3: every booking instant at or after `now`, at or after its date's
opening instant, at or before its date's closing instant, and at least
the lead time after `now`, is accepted: `checkTime` returns the success
result. -/
theorem checkTime_valid_of_in_window (now bookingTime : GoTime) (reminderDiff : Int)
    (hnow : now.toMinutes ≤ bookingTime.toMinutes)
    (hopen : (openingTimeOf bookingTime).toMinutes ≤ bookingTime.toMinutes)
    (hclose : bookingTime.toMinutes ≤ (closingTimeOf bookingTime).toMinutes)
    (hlead : reminderDiff ≤ bookingTime.toMinutes - now.toMinutes) :
    checkTime now bookingTime reminderDiff = successMsg := by
  rw [checkTime_eq_render]
  have houtcome : checkTimeOutcome now bookingTime reminderDiff = ValidationOutcome.Valid := by
    simp only [checkTimeOutcome, GoTime.before, GoTime.after, GoTime.sub,
      openingTimeOf, closingTimeOf, GoTime.toMinutes, decide_eq_true_eq] at *
    split_ifs <;> first | rfl | (exfalso; omega)
  rw [houtcome]
  rfl

/-- C3 witness: Scenario A (`now` 10:00, booking 14:00 same day, 3h lead
time) is accepted. -/
theorem checkTime_valid_of_in_window_witness :
    checkTime ⟨200, 600⟩ ⟨200, 840⟩ 180 = successMsg :=
  checkTime_valid_of_in_window ⟨200, 600⟩ ⟨200, 840⟩ 180
    (by decide) (by decide) (by decide) (by decide)

/-- C8: the time validator is total: for every booking instant, clock
reading and lead time it returns one of the five branch results
(`Valid`/`BeforeNow`/`BeforeOpening`/`AfterClosing`/`TooSoon` messages),
and in particular never the empty string. -/
theorem checkTime_total (now bookingTime : GoTime) (reminderDiff : Int) :
    (checkTime now bookingTime reminderDiff = beforeNowMsg ∨
     checkTime now bookingTime reminderDiff = beforeOpeningMsg ∨
     checkTime now bookingTime reminderDiff = afterClosingMsg ∨
     checkTime now bookingTime reminderDiff = tooSoonMsg reminderDiff ∨
     checkTime now bookingTime reminderDiff = successMsg) ∧
    checkTime now bookingTime reminderDiff ≠ "" := by
  refine ⟨?_, checkTime_ne_empty now bookingTime reminderDiff⟩
  rw [checkTime_eq_render]
  cases checkTimeOutcome now bookingTime reminderDiff <;> simp [renderMsg]

/-- C9: `checkTime` never writes to the HTTP response: with the
`http.ResponseWriter` parameter of the Go signature modelled as a
threaded state of arbitrary type, the state after the call is the state
passed in, and the returned status string is all the call produces. -/
theorem checkTime_leaves_response_untouched (W : Type) (w : W)
    (bookingTime : GoTime) (reminderDiff : Int) (now : GoTime) :
    (checkTimeW w bookingTime reminderDiff now).2 = w ∧
    (checkTimeW w bookingTime reminderDiff now).1 = checkTime now bookingTime reminderDiff := by
  exact ⟨rfl, rfl⟩

/-- C4 counterexample: the claim that two calls of the validation routine
with the same booking instant, lead time and business-hours configuration
always produce the same outcome is false for the code: `checkTime` reads
`time.Now()` inside its body (src/main.go line 159), so the same booking
(day 100, 14:00) with the same 3h lead time yields different results when
the clock reads day 100, 10:00 versus day 101, 10:00. -/
theorem checkTime_depends_on_clock :
    checkTime ⟨100, 600⟩ ⟨100, 840⟩ 180 ≠ checkTime ⟨101, 600⟩ ⟨100, 840⟩ 180 := by
  decide

/-- C4 amended: the validation routine reads `now` from the live system
clock inside itself; it is deterministic as a function of the booking
instant, lead time, business-hours window *and* that clock reading: two
calls that read the same clock value agree. -/
theorem checkTime_deterministic_given_clock (now₁ now₂ bookingTime : GoTime)
    (reminderDiff : Int) (h : now₁ = now₂) :
    checkTime now₁ bookingTime reminderDiff = checkTime now₂ bookingTime reminderDiff := by
  rw [h]

/-- C4 amended witness: two calls at the same clock reading agree on a
concrete input. -/
theorem checkTime_deterministic_given_clock_witness :
    checkTime ⟨100, 600⟩ ⟨100, 840⟩ 180 = checkTime ⟨100, 600⟩ ⟨100, 840⟩ 180 :=
  checkTime_deterministic_given_clock ⟨100, 600⟩ ⟨100, 600⟩ ⟨100, 840⟩ 180 rfl

/-!
## Claims about the handler
-/

/-- C6: for every POST whose phone lookup fails (invalid number or errored
lookup call, both surfacing as a non-nil error from `lookup.Read`), the
handler re-renders the form with the submitted name, treatment and phone
preserved and the message asking for a valid phone number, and never
invokes `sms.Create`. -/
theorem bbScheduler_phone_invalid_preserves_form (env : Env) (r : Request)
    (hm : r.method = Method.POST) (hlk : env.lookupOk = false) :
    (bbScheduler env r).rendered.Booking.Name = r.name ∧
    (bbScheduler env r).rendered.Booking.Treatment = r.treatment ∧
    (bbScheduler env r).rendered.Booking.Phone = r.phone ∧
    (bbScheduler env r).rendered.Message = "Please enter a valid phone number." ∧
    (bbScheduler env r).smsCall = none := by
  rcases r with ⟨m, nm, tr, ph, df, tf⟩
  cases m with
  | GET => simp at hm
  | POST => simp [bbScheduler, hlk]

/-- C6 witness: a concrete POST with a failing lookup keeps the entered
values and schedules nothing. -/
theorem bbScheduler_phone_invalid_preserves_form_witness :
    (bbScheduler ⟨⟨100, 600⟩, some ⟨100, 840⟩, false, true, ""⟩
        ⟨Method.POST, "Jane", "Massage", "abc", "2024-03-01", "14:00"⟩).rendered.Booking.Name
      = "Jane" ∧
    (bbScheduler ⟨⟨100, 600⟩, some ⟨100, 840⟩, false, true, ""⟩
        ⟨Method.POST, "Jane", "Massage", "abc", "2024-03-01", "14:00"⟩).rendered.Booking.Treatment
      = "Massage" ∧
    (bbScheduler ⟨⟨100, 600⟩, some ⟨100, 840⟩, false, true, ""⟩
        ⟨Method.POST, "Jane", "Massage", "abc", "2024-03-01", "14:00"⟩).rendered.Booking.Phone
      = "abc" ∧
    (bbScheduler ⟨⟨100, 600⟩, some ⟨100, 840⟩, false, true, ""⟩
        ⟨Method.POST, "Jane", "Massage", "abc", "2024-03-01", "14:00"⟩).rendered.Message
      = "Please enter a valid phone number." ∧
    (bbScheduler ⟨⟨100, 600⟩, some ⟨100, 840⟩, false, true, ""⟩
        ⟨Method.POST, "Jane", "Massage", "abc", "2024-03-01", "14:00"⟩).smsCall = none :=
  bbScheduler_phone_invalid_preserves_form
    ⟨⟨100, 600⟩, some ⟨100, 840⟩, false, true, ""⟩
    ⟨Method.POST, "Jane", "Massage", "abc", "2024-03-01", "14:00"⟩ rfl rfl

/-- C7: for every POST that passes the phone check, if the time validation
succeeds the handler invokes `sms.Create` exactly once, scheduled at the
booking instant minus the 3-hour lead time and addressed to the submitted
phone number; if the validation outcome is not the success result, the
handler does not invoke `sms.Create` and reports the specific rejection
message instead. -/
theorem bbScheduler_schedules_iff_valid (env : Env) (r : Request)
    (hm : r.method = Method.POST) (hlk : env.lookupOk = true) :
    (checkTime env.sysNow (env.parseResult.getD GoTime.zero) reminderDiffVal = successMsg →
      ∃ c : SmsCall, (bbScheduler env r).smsCall = some c ∧
        c.scheduledDatetime.toMinutes =
          (env.parseResult.getD GoTime.zero).toMinutes - reminderDiffVal ∧
        c.recipients = [r.phone]) ∧
    (checkTime env.sysNow (env.parseResult.getD GoTime.zero) reminderDiffVal ≠ successMsg →
      (bbScheduler env r).smsCall = none ∧
      (bbScheduler env r).rendered.Message =
        checkTime env.sysNow (env.parseResult.getD GoTime.zero) reminderDiffVal) := by
  rcases r with ⟨m, nm, tr, ph, df, tf⟩
  cases m with
  | GET => simp at hm
  | POST =>
    constructor
    · intro hs
      simp only [successMsg] at hs
      simp only [bbScheduler, hlk]
      rw [if_neg (by simp), if_pos hs]
      cases henv : env.smsOk with
      | false =>
        rw [if_pos rfl]
        exact ⟨_, rfl, by rw [GoTime.toMinutes_add]; simp only [reminderDiffVal]; omega, rfl⟩
      | true =>
        rw [if_neg (by simp)]
        exact ⟨_, rfl, by rw [GoTime.toMinutes_add]; simp only [reminderDiffVal]; omega, rfl⟩
    · intro hs
      simp only [successMsg] at hs
      simp only [bbScheduler, hlk]
      rw [if_neg (by simp), if_neg hs,
        if_pos (checkTime_ne_empty env.sysNow (env.parseResult.getD GoTime.zero) reminderDiffVal)]
      exact ⟨rfl, rfl⟩

/-- C7 witness: with a valid booking (day 100, 14:00, clock at 10:00) the
handler schedules exactly one reminder, 180 minutes before the booking. -/
theorem bbScheduler_schedules_iff_valid_witness :
    ∃ c : SmsCall,
      (bbScheduler ⟨⟨100, 600⟩, some ⟨100, 840⟩, true, true, ""⟩
          ⟨Method.POST, "Jane", "Massage", "+31612345678", "d", "t"⟩).smsCall = some c ∧
      c.scheduledDatetime.toMinutes =
        ((some (⟨100, 840⟩ : GoTime)).getD GoTime.zero).toMinutes - reminderDiffVal ∧
      c.recipients = ["+31612345678"] :=
  (bbScheduler_schedules_iff_valid ⟨⟨100, 600⟩, some ⟨100, 840⟩, true, true, ""⟩
      ⟨Method.POST, "Jane", "Massage", "+31612345678", "d", "t"⟩ rfl rfl).1 (by decide)

/-- Parse failure leaves the booking time at Go's zero `time.Time`, which
any positive clock reading postdates, so `checkTime` rejects it with the
before-now message. (Helper for the parse-failure claims.) -/
theorem checkTime_zero_beforeNow (now : GoTime) (reminderDiff : Int)
    (hnow : 0 < now.toMinutes) :
    checkTime now GoTime.zero reminderDiff = beforeNowMsg := by
  rw [checkTime_eq_render]
  have houtcome : checkTimeOutcome now GoTime.zero reminderDiff =
      ValidationOutcome.BeforeNow := by
    simp only [checkTimeOutcome, GoTime.before, GoTime.zero, GoTime.toMinutes,
      decide_eq_true_eq] at *
    split_ifs <;> first | rfl | (exfalso; omega)
  rw [houtcome]
  rfl

/-- C10: a POST whose date/time strings fail to parse proceeds with the
zero timestamp, which is strictly before any positive clock reading, so
no SMS is ever scheduled for a malformed submission, and (when the phone
lookup succeeds, so the time check is reached) the rejection rendered is
the before-now message, not a dedicated malformed-input message. -/
theorem bbScheduler_parse_failure_rejected_as_beforeNow (env : Env) (r : Request)
    (hm : r.method = Method.POST) (hp : env.parseResult = none)
    (hnow : 0 < env.sysNow.toMinutes) :
    (bbScheduler env r).smsCall = none ∧
    (env.lookupOk = true → (bbScheduler env r).rendered.Message = beforeNowMsg) := by
  have hstat : checkTime env.sysNow (env.parseResult.getD GoTime.zero) reminderDiffVal
      = beforeNowMsg := by
    rw [hp]
    exact checkTime_zero_beforeNow env.sysNow reminderDiffVal hnow
  rcases r with ⟨m, nm, tr, ph, df, tf⟩
  cases m with
  | GET => simp at hm
  | POST =>
    cases hlk : env.lookupOk with
    | false =>
      constructor
      · simp [bbScheduler, hlk]
      · intro h
        exact absurd h (by decide)
    | true =>
      have hne : checkTime env.sysNow (env.parseResult.getD GoTime.zero) reminderDiffVal
          ≠ "Success!" := by
        rw [hstat]
        decide
      constructor
      · simp only [bbScheduler, hlk]
        rw [if_neg (by simp), if_neg hne,
          if_pos (checkTime_ne_empty env.sysNow (env.parseResult.getD GoTime.zero)
            reminderDiffVal)]
      · intro _
        simp only [bbScheduler, hlk]
        rw [if_neg (by simp), if_neg hne,
          if_pos (checkTime_ne_empty env.sysNow (env.parseResult.getD GoTime.zero)
            reminderDiffVal)]
        exact hstat

/-- C10 witness: a concrete malformed POST (parse failure, clock at day
100, 10:00) schedules nothing and shows the before-now message. -/
theorem bbScheduler_parse_failure_rejected_as_beforeNow_witness :
    (bbScheduler ⟨⟨100, 600⟩, none, true, true, ""⟩
        ⟨Method.POST, "Jane", "Massage", "+31612345678", "bad", "bad"⟩).smsCall = none ∧
    (bbScheduler ⟨⟨100, 600⟩, none, true, true, ""⟩
        ⟨Method.POST, "Jane", "Massage", "+31612345678", "bad", "bad"⟩).rendered.Message
      = beforeNowMsg :=
  ⟨(bbScheduler_parse_failure_rejected_as_beforeNow ⟨⟨100, 600⟩, none, true, true, ""⟩
      ⟨Method.POST, "Jane", "Massage", "+31612345678", "bad", "bad"⟩ rfl rfl
      (by decide)).1,
   (bbScheduler_parse_failure_rejected_as_beforeNow ⟨⟨100, 600⟩, none, true, true, ""⟩
      ⟨Method.POST, "Jane", "Massage", "+31612345678", "bad", "bad"⟩ rfl rfl
      (by decide)).2 rfl⟩

/-- C5: evaluation of the handler at a malformed submission.  When
`time.ParseInLocation` fails (src/main.go line 82), the code only logs the
error (lines 83-85) and continues: the booking time is Go's zero
`time.Time`, the booking record is populated with that zero timestamp,
and the request proceeds through the phone check into `checkTime`, which
renders the before-now rejection — not a distinct malformed-input
message, and the malformed request is not stopped at the parse step. -/
theorem bbScheduler_parse_failure_not_surfaced :
    (bbScheduler ⟨⟨200, 720⟩, none, true, true, ""⟩
        ⟨Method.POST, "Eve", "Facial", "+31600000000", "2024-13-99", "zz:zz"⟩).rendered.Booking.BookingTime
      = some GoTime.zero ∧
    (bbScheduler ⟨⟨200, 720⟩, none, true, true, ""⟩
        ⟨Method.POST, "Eve", "Facial", "+31600000000", "2024-13-99", "zz:zz"⟩).rendered.Message
      = beforeNowMsg ∧
    beforeNowMsg ≠ "Please check your details and try again!" := by
  exact ⟨rfl, by decide, by decide⟩
